import Mathlib

/-!
Verification of the YouTube Audio Normalizer content script.

The development embeds the content script's data model and operations:
  * the preset table and settings record, with the `updateSettings`,
    `applyPreset`, `resetSettings` and `getState` message handlers
    (a computable state machine over `ℚ`-valued settings);
  * the level meter (`calcRMS`, `linearToDB`) and the auto-gain control
    loop run by `startMetering`, over `ℝ`;
  * the audio-graph wiring (`buildGraph`, `disconnectAll`,
    `connectProcessing`, `connectBypass`) as a connection-set machine.
-/

set_option maxHeartbeats 1000000

namespace YTAN

/-- One named preset's parameter tuple, as stored in the `PRESETS`
constant of the content script. -/
structure Preset where
  threshold : ℚ
  ratio : ℚ
  knee : ℚ
  attack : ℚ
  release : ℚ
  makeupGain : ℚ
  autoGain : Bool
  targetLevel : ℚ
deriving DecidableEq

/-- The `light` entry of `PRESETS`. -/
def lightPreset : Preset :=
  { threshold := -18, ratio := 2, knee := 20, attack := 10, release := 300,
    makeupGain := 2, autoGain := true, targetLevel := -16 }

/-- The `medium` entry of `PRESETS`. -/
def mediumPreset : Preset :=
  { threshold := -24, ratio := 4, knee := 10, attack := 3, release := 250,
    makeupGain := 6, autoGain := true, targetLevel := -14 }

/-- The `heavy` entry of `PRESETS`. -/
def heavyPreset : Preset :=
  { threshold := -35, ratio := 10, knee := 5, attack := 1, release := 150,
    makeupGain := 12, autoGain := true, targetLevel := -11 }

/-- The own entries of the `PRESETS` object literal: `some` for the
three table rows and `none` for every other property name. -/
def PRESETS (name : String) : Option Preset :=
  if name = "light" then some lightPreset
  else if name = "medium" then some mediumPreset
  else if name = "heavy" then some heavyPreset
  else none

/-- The property names that a JS bracket access `PRESETS[name]` finds on
`Object.prototype` through the prototype chain even though they are not
table entries. Each of them evaluates to a truthy value (a built-in
function, or for `__proto__` the prototype object itself), and none of
them carries enumerable own properties, so `Object.assign` from such a
value copies nothing. -/
def protoProperty (name : String) : Bool :=
  ["constructor", "hasOwnProperty", "isPrototypeOf", "propertyIsEnumerable",
   "toLocaleString", "toString", "valueOf", "__proto__", "__defineGetter__",
   "__defineSetter__", "__lookupGetter__", "__lookupSetter__"].contains name

/-- Truthiness of the JS bracket access `PRESETS[name]`: an own table
entry, or an inherited `Object.prototype` property. -/
def presetLookupTruthy (name : String) : Bool :=
  (PRESETS name).isSome || protoProperty name

/-- The settings record held in the content script's module state. -/
structure Settings where
  enabled : Bool
  preset : String
  autoGain : Bool
  targetLevel : ℚ
  threshold : ℚ
  ratio : ℚ
  knee : ℚ
  attack : ℚ
  release : ℚ
  makeupGain : ℚ
  preGain : ℚ
  limiterThreshold : ℚ
deriving DecidableEq

/-- The `DEFAULT_SETTINGS` constant of the content script. -/
def DEFAULT_SETTINGS : Settings :=
  { enabled := true, preset := "medium", autoGain := true, targetLevel := -14,
    threshold := -24, ratio := 4, knee := 10, attack := 3, release := 250,
    makeupGain := 6, preGain := 0, limiterThreshold := -1 }

/-- The `msg.settings` record carried by an `updateSettings` message:
each field is `some v` when the key is present on the incoming object
and `none` when it is absent. -/
structure Incoming where
  enabled : Option Bool := none
  preset : Option String := none
  autoGain : Option Bool := none
  targetLevel : Option ℚ := none
  threshold : Option ℚ := none
  ratio : Option ℚ := none
  knee : Option ℚ := none
  attack : Option ℚ := none
  release : Option ℚ := none
  makeupGain : Option ℚ := none
  preGain : Option ℚ := none
  limiterThreshold : Option ℚ := none
deriving DecidableEq

/-- Effect of `Object.assign(settings, incoming)`: field-wise override of
the current settings by every key present on the incoming record. -/
def mergeIncoming (s : Settings) (inc : Incoming) : Settings :=
  { enabled := inc.enabled.getD s.enabled,
    preset := inc.preset.getD s.preset,
    autoGain := inc.autoGain.getD s.autoGain,
    targetLevel := inc.targetLevel.getD s.targetLevel,
    threshold := inc.threshold.getD s.threshold,
    ratio := inc.ratio.getD s.ratio,
    knee := inc.knee.getD s.knee,
    attack := inc.attack.getD s.attack,
    release := inc.release.getD s.release,
    makeupGain := inc.makeupGain.getD s.makeupGain,
    preGain := inc.preGain.getD s.preGain,
    limiterThreshold := inc.limiterThreshold.getD s.limiterThreshold }

/-- Overriding a settings record with a preset tuple, as done by the final
`PRESETS[...]` argument of `Object.assign(settings, incoming, PRESETS[p])`.
The preset object carries exactly the eight keys below (no `preset`,
`enabled`, `preGain` or `limiterThreshold` key). -/
def assignPreset (s : Settings) (p : Preset) : Settings :=
  { s with threshold := p.threshold, ratio := p.ratio, knee := p.knee,
           attack := p.attack, release := p.release, makeupGain := p.makeupGain,
           autoGain := p.autoGain, targetLevel := p.targetLevel }

/-- The `else` branch of the `updateSettings` handler:
`Object.assign(settings, incoming)` followed by
`if (incoming.preset !== settings.preset) settings.preset = 'custom'`.
When the incoming record has no `preset` key, `incoming.preset` reads as
`undefined`, which is never equal to the (string) `settings.preset`, so
the comparison always fires in that case. -/
def updateSettingsElse (s : Settings) (inc : Incoming) : Settings :=
  let s1 := mergeIncoming s inc
  match inc.preset with
  | some name => if name = s1.preset then s1 else { s1 with preset := "custom" }
  | none => { s1 with preset := "custom" }

/-- The `updateSettings` handler's settings transition:
`if (incoming.preset && incoming.preset !== 'custom' && PRESETS[incoming.preset])`
merge incoming and then `PRESETS[incoming.preset]`; otherwise take the
`else` branch. The bracket lookup is truthy both for the three table rows
and for inherited `Object.prototype` property names; in the latter case
the final `Object.assign` argument carries no enumerable own properties
and copies nothing, leaving the plain merge (with the supplied name kept
verbatim as `preset`). A `some ""` preset models an empty (falsy)
string. -/
def updateSettingsStep (s : Settings) (inc : Incoming) : Settings :=
  match inc.preset with
  | some name =>
      if name ≠ "" ∧ name ≠ "custom" ∧ presetLookupTruthy name = true then
        match PRESETS name with
        | some p => assignPreset (mergeIncoming s inc) p
        | none => mergeIncoming s inc
      else updateSettingsElse s inc
  | none => updateSettingsElse s inc

/-- Side effects the message handlers request from the audio layer. -/
inductive Effect
  | save
  | applyParams
  | routeProcessing
  | routeBypass
deriving DecidableEq

/-- The message types understood by the `chrome.runtime.onMessage` listener. -/
inductive Msg
  | getState
  | updateSettings (inc : Incoming)
  | applyPreset (name : String)
  | resetSettings
  | unknown (tag : String)
deriving DecidableEq

/-- The `sendResponse` payload (restricted to the settings content;
meter levels and context state are carried alongside in the script). -/
inductive Response
  | snapshot (settings : Settings)
  | success (settings : Settings)
  | unknownType
deriving DecidableEq

/-- Routing triggered by `updateSettings` when the incoming record carries
an `enabled` key: `if (incoming.enabled) connectProcessing(); else connectBypass()`. -/
def routeEffects (enabledField : Option Bool) : List Effect :=
  match enabledField with
  | some true => [Effect.routeProcessing]
  | some false => [Effect.routeBypass]
  | none => []

/-- The `chrome.runtime.onMessage` listener: settings transition, requested
side effects (in order), and response, for each message type. In the
`applyPreset` handler the `const p = PRESETS[msg.preset]; if (p)` guard
also passes when the bracket lookup finds an inherited `Object.prototype`
property: `Object.assign(settings, p, {preset, enabled: true})` then
copies nothing from the built-in (no enumerable own properties) but still
sets the preset name, forces `enabled`, and triggers save, parameter
application and re-routing. -/
def handleMessage (s : Settings) : Msg → Settings × List Effect × Response
  | Msg.getState => (s, [], Response.snapshot s)
  | Msg.updateSettings inc =>
      let s1 := updateSettingsStep s inc
      (s1, [Effect.save, Effect.applyParams] ++ routeEffects inc.enabled,
       Response.success s1)
  | Msg.applyPreset name =>
      match PRESETS name with
      | some p =>
          let s1 := { assignPreset s p with preset := name, enabled := true }
          (s1, [Effect.save, Effect.applyParams, Effect.routeProcessing],
           Response.success s1)
      | none =>
          if protoProperty name = true then
            let s1 := { s with preset := name, enabled := true }
            (s1, [Effect.save, Effect.applyParams, Effect.routeProcessing],
             Response.success s1)
          else (s, [], Response.success s)
  | Msg.resetSettings =>
      (DEFAULT_SETTINGS,
       [Effect.save, Effect.applyParams,
        if DEFAULT_SETTINGS.enabled then Effect.routeProcessing else Effect.routeBypass],
       Response.success DEFAULT_SETTINGS)
  | Msg.unknown _ => (s, [], Response.unknownType)

/-- Settings component of a message step. -/
def stepSettings (s : Settings) (m : Msg) : Settings := (handleMessage s m).1

/-- Settings reached from the defaults by a sequence of messages. -/
def runMsgs (ms : List Msg) : Settings := ms.foldl stepSettings DEFAULT_SETTINGS

/-- The preset/field coherence invariant: a settings record whose preset
name resolves in the preset table carries exactly that preset's tuple on
the five compressor fields plus `autoGain` and `targetLevel`. -/
def PresetInvariant (s : Settings) : Prop :=
  ∀ p : Preset, PRESETS s.preset = some p →
    s.threshold = p.threshold ∧ s.ratio = p.ratio ∧ s.knee = p.knee ∧
    s.attack = p.attack ∧ s.release = p.release ∧
    s.autoGain = p.autoGain ∧ s.targetLevel = p.targetLevel

lemma PRESETS_cases {name : String} {p : Preset} (h : PRESETS name = some p) :
    (name = "light" ∧ p = lightPreset) ∨ (name = "medium" ∧ p = mediumPreset) ∨
      (name = "heavy" ∧ p = heavyPreset) := by
  unfold PRESETS at h
  split_ifs at h with h1 h2 h3 <;> simp_all

lemma updateSettingsStep_of_validPreset (s : Settings) (inc : Incoming)
    (name : String) (p : Preset) (hinc : inc.preset = some name)
    (hP : PRESETS name = some p) :
    updateSettingsStep s inc = assignPreset (mergeIncoming s inc) p := by
  have hq : name ≠ "" ∧ name ≠ "custom" ∧ presetLookupTruthy name = true := by
    rcases PRESETS_cases hP with ⟨h1, _⟩ | ⟨h1, _⟩ | ⟨h1, _⟩ <;> subst h1 <;>
      exact ⟨by decide, by decide, by decide⟩
  simp only [updateSettingsStep, hinc]
  rw [if_pos hq]
  simp only [hP]

lemma updateSettingsStep_preset (s : Settings) (inc : Incoming) :
    (updateSettingsStep s inc).preset =
      (match inc.preset with | some n => n | none => "custom") := by
  cases hinc : inc.preset with
  | none => simp [updateSettingsStep, updateSettingsElse, hinc]
  | some name =>
    by_cases hg : name ≠ "" ∧ name ≠ "custom" ∧ presetLookupTruthy name = true
    · cases hP : PRESETS name with
      | none => simp [updateSettingsStep, hinc, hg, hP, mergeIncoming]
      | some p => simp [updateSettingsStep, hinc, hg, hP, assignPreset, mergeIncoming]
    · simp [updateSettingsStep, updateSettingsElse, hinc, hg, mergeIncoming]

lemma presetInvariant_default : PresetInvariant DEFAULT_SETTINGS := by
  intro p hp
  have h : PRESETS DEFAULT_SETTINGS.preset = some mediumPreset := by decide
  rw [h, Option.some_inj] at hp
  subst hp
  decide

lemma updateSettingsStep_presetInvariant (s : Settings) (inc : Incoming) :
    PresetInvariant (updateSettingsStep s inc) := by
  intro q hq
  rw [updateSettingsStep_preset] at hq
  cases hinc : inc.preset with
  | none =>
      rw [hinc] at hq
      have h0 : PRESETS "custom" = none := by decide
      rw [h0] at hq
      simp at hq
  | some name =>
    cases hP : PRESETS name with
    | none =>
        rw [hinc] at hq
        simp only at hq
        rw [hP] at hq
        simp at hq
    | some p =>
        rw [updateSettingsStep_of_validPreset s inc name p hinc hP]
        rw [hinc] at hq
        simp only at hq
        rw [hP, Option.some_inj] at hq
        subst hq
        simp [assignPreset]

lemma stepSettings_invariant (s : Settings) (m : Msg) (hs : PresetInvariant s) :
    PresetInvariant (stepSettings s m) := by
  cases m with
  | getState => simpa [stepSettings, handleMessage] using hs
  | updateSettings inc =>
      simpa [stepSettings, handleMessage] using updateSettingsStep_presetInvariant s inc
  | applyPreset name =>
      cases hP : PRESETS name with
      | none =>
          by_cases hpp : protoProperty name = true
          · intro q hq
            simp only [stepSettings, handleMessage, hP, hpp, if_true] at hq ⊢
            simp at hq
          · simpa [stepSettings, handleMessage, hP, hpp] using hs
      | some p =>
          intro q hq
          simp only [stepSettings, handleMessage, hP] at hq ⊢
          rw [Option.some_inj] at hq
          subst hq
          simp [assignPreset]
  | resetSettings => simpa [stepSettings, handleMessage] using presetInvariant_default
  | unknown tag => simpa [stepSettings, handleMessage] using hs

lemma foldl_stepSettings_invariant (ms : List Msg) :
    ∀ s, PresetInvariant s → PresetInvariant (ms.foldl stepSettings s) := by
  induction ms with
  | nil => intro s hs; simpa using hs
  | cons m ms ih => intro s hs; exact ih _ (stepSettings_invariant s m hs)

/-- C2: along every message sequence starting from the default settings,
whenever the reached settings name a preset that resolves in the preset
table, the five compressor fields plus `autoGain` and `targetLevel`
exactly equal that preset's tuple. -/
theorem reachable_settings_match_named_preset (ms : List Msg) (p : Preset)
    (hp : PRESETS (runMsgs ms).preset = some p) :
    (runMsgs ms).threshold = p.threshold ∧ (runMsgs ms).ratio = p.ratio ∧
    (runMsgs ms).knee = p.knee ∧ (runMsgs ms).attack = p.attack ∧
    (runMsgs ms).release = p.release ∧ (runMsgs ms).autoGain = p.autoGain ∧
    (runMsgs ms).targetLevel = p.targetLevel :=
  foldl_stepSettings_invariant ms DEFAULT_SETTINGS presetInvariant_default p hp

/-- Witness for C2 at the concrete message sequence `[applyPreset light]`. -/
theorem reachable_settings_match_named_preset_witness :
    PRESETS (runMsgs [Msg.applyPreset "light"]).preset = some lightPreset ∧
    ((runMsgs [Msg.applyPreset "light"]).threshold = lightPreset.threshold ∧
     (runMsgs [Msg.applyPreset "light"]).ratio = lightPreset.ratio ∧
     (runMsgs [Msg.applyPreset "light"]).knee = lightPreset.knee ∧
     (runMsgs [Msg.applyPreset "light"]).attack = lightPreset.attack ∧
     (runMsgs [Msg.applyPreset "light"]).release = lightPreset.release ∧
     (runMsgs [Msg.applyPreset "light"]).autoGain = lightPreset.autoGain ∧
     (runMsgs [Msg.applyPreset "light"]).targetLevel = lightPreset.targetLevel) :=
  ⟨by decide, reachable_settings_match_named_preset [Msg.applyPreset "light"] lightPreset (by decide)⟩

/-- C1 counterexample: an update that only provides `threshold := -24`,
the exact value of the active `medium` preset, and no preset name, still
flips `preset` to `custom` (the handler never compares field values). -/
theorem update_matching_field_still_flips_custom :
    DEFAULT_SETTINGS.preset = "medium" ∧
    PRESETS "medium" = some mediumPreset ∧
    mediumPreset.threshold = -24 ∧
    (updateSettingsStep DEFAULT_SETTINGS { threshold := some (-24) }).preset = "custom" := by
  decide

/-- C1 amended: after `updateSettings(partial)`, the resulting preset name
equals the supplied preset string when the update carries one (whether or
not it names a real preset), and is always `custom` when the update
carries no preset key — independently of how the provided tunable fields
compare to the active preset's values. -/
theorem updateSettings_preset_outcome (s : Settings) (inc : Incoming) :
    (updateSettingsStep s inc).preset =
      (match inc.preset with | some n => n | none => "custom") :=
  updateSettingsStep_preset s inc

/-- C7 counterexample: an `updateSettings` that supplies the valid preset
name `light` together with `enabled := false` sets the preset name and its
tuple but leaves `enabled` false, so `enabled := true` is not part of
applying a preset through `updateSettings`. -/
theorem update_with_preset_keeps_enabled_false :
    (updateSettingsStep DEFAULT_SETTINGS
        { preset := some "light", enabled := some false }).preset = "light" ∧
    (updateSettingsStep DEFAULT_SETTINGS
        { preset := some "light", enabled := some false }).threshold = lightPreset.threshold ∧
    (updateSettingsStep DEFAULT_SETTINGS
        { preset := some "light", enabled := some false }).enabled = false := by
  decide

/-- C7 amended: an `updateSettings` supplying a valid named preset
atomically sets the preset name and the preset's full value tuple
(overriding any individually-supplied tunable fields), while `enabled`
follows the incoming record or the previous state — it is not forced to
`true` (only the separate `applyPreset` command forces `enabled := true`). -/
theorem updateSettings_valid_preset_atomic (s : Settings) (inc : Incoming)
    (name : String) (p : Preset) (hinc : inc.preset = some name)
    (hP : PRESETS name = some p) :
    (updateSettingsStep s inc).preset = name ∧
    (updateSettingsStep s inc).threshold = p.threshold ∧
    (updateSettingsStep s inc).ratio = p.ratio ∧
    (updateSettingsStep s inc).knee = p.knee ∧
    (updateSettingsStep s inc).attack = p.attack ∧
    (updateSettingsStep s inc).release = p.release ∧
    (updateSettingsStep s inc).makeupGain = p.makeupGain ∧
    (updateSettingsStep s inc).autoGain = p.autoGain ∧
    (updateSettingsStep s inc).targetLevel = p.targetLevel ∧
    (updateSettingsStep s inc).enabled = inc.enabled.getD s.enabled := by
  rw [updateSettingsStep_of_validPreset s inc name p hinc hP]
  simp [assignPreset, mergeIncoming, hinc]

/-- Witness for C7 (amended) at the concrete update
`{ preset := heavy, enabled := false }` from the default settings. -/
theorem updateSettings_valid_preset_atomic_witness :
    (updateSettingsStep DEFAULT_SETTINGS
        { preset := some "heavy", enabled := some false }).preset = "heavy" ∧
    (updateSettingsStep DEFAULT_SETTINGS
        { preset := some "heavy", enabled := some false }).threshold = heavyPreset.threshold ∧
    (updateSettingsStep DEFAULT_SETTINGS
        { preset := some "heavy", enabled := some false }).ratio = heavyPreset.ratio ∧
    (updateSettingsStep DEFAULT_SETTINGS
        { preset := some "heavy", enabled := some false }).knee = heavyPreset.knee ∧
    (updateSettingsStep DEFAULT_SETTINGS
        { preset := some "heavy", enabled := some false }).attack = heavyPreset.attack ∧
    (updateSettingsStep DEFAULT_SETTINGS
        { preset := some "heavy", enabled := some false }).release = heavyPreset.release ∧
    (updateSettingsStep DEFAULT_SETTINGS
        { preset := some "heavy", enabled := some false }).makeupGain = heavyPreset.makeupGain ∧
    (updateSettingsStep DEFAULT_SETTINGS
        { preset := some "heavy", enabled := some false }).autoGain = heavyPreset.autoGain ∧
    (updateSettingsStep DEFAULT_SETTINGS
        { preset := some "heavy", enabled := some false }).targetLevel = heavyPreset.targetLevel ∧
    (updateSettingsStep DEFAULT_SETTINGS
        { preset := some "heavy", enabled := some false }).enabled = false :=
  updateSettings_valid_preset_atomic DEFAULT_SETTINGS
    { preset := some "heavy", enabled := some false } "heavy" heavyPreset rfl (by decide)

/-- Conversion `dBtoLinear`: `Math.pow(10, dB / 20)`. -/
noncomputable def dBtoLinear (dB : ℝ) : ℝ := (10 : ℝ) ^ (dB / 20)

/-- Conversion `linearToDB`: `20 * Math.log10(lin || 1e-10)`. A zero
(falsy) linear value falls back to the `1e-10` floor; any non-zero value
is passed to the logarithm unchanged. -/
noncomputable def linearToDB (lin : ℝ) : ℝ :=
  20 * Real.logb 10 (if lin = 0 then 1e-10 else lin)

/-- Function `calcRMS(buffer)`: the square root of the mean of the
squared samples. -/
noncomputable def calcRMS (buffer : List ℝ) : ℝ :=
  Real.sqrt ((buffer.map (fun x => x * x)).sum / buffer.length)

/-- A pending `gain.setTargetAtTime(target, now, timeConstant)` request
on the auto-gain stage (target is a linear gain, timeConstant seconds). -/
structure Ramp where
  target : ℝ
  timeConstant : ℝ

/-- The constant `RMS_HISTORY_LEN` (window capacity, about 2 s at the
100 ms tick). -/
def RMS_HISTORY_LEN : ℕ := 20

/-- Controller state mutated by the metering loop: the rolling loudness
window `rmsHistory` and the running `autoGainValue` in dB. -/
structure AGCState where
  rmsHistory : List ℝ
  autoGainValue : ℝ

/-- The meter readings republished on every tick. -/
structure Levels where
  inputRMS : ℝ
  outputRMS : ℝ
  reduction : ℝ

/-- One iteration of the `startMetering` interval callback. The analyser
buffers and the compressor's reduction reading are tick inputs; `enabled`,
`autoGain` and `targetLevel` are read from the settings record. When
`enabled && autoGain && inRMS > 0.0005`, the callback pushes the input
loudness onto the window (shifting the oldest entry past capacity),
smooths `autoGainValue` toward `targetLevel` minus the window average,
clamps it, and requests a 0.3 s ramp of the stage gain; otherwise it
leaves the controller state alone. -/
noncomputable def meterTick (enabled autoGain : Bool) (targetLevel : ℝ)
    (inBuf outBuf : List ℝ) (reduction : ℝ) (st : AGCState) :
    AGCState × Levels × Option Ramp :=
  let inRMS := calcRMS inBuf
  let outRMS := calcRMS outBuf
  let levels : Levels := ⟨linearToDB inRMS, linearToDB outRMS, reduction⟩
  if enabled = true ∧ autoGain = true ∧ inRMS > 0.0005 then
    let hist1 := st.rmsHistory ++ [linearToDB inRMS]
    let hist2 := if hist1.length > RMS_HISTORY_LEN then hist1.tail else hist1
    let avgDB := hist2.sum / hist2.length
    let desired := targetLevel - avgDB
    let ag1 := st.autoGainValue + (desired - st.autoGainValue) * 0.08
    let ag2 := max (-24) (min 24 ag1)
    (⟨hist2, ag2⟩, levels, some ⟨dBtoLinear ag2, 0.3⟩)
  else (st, levels, none)

/-- Modelled from the claim's wording, for comparison against `meterTick`:
push the loudness measurement onto the window, drop the oldest element
when the length exceeds capacity 20, set `desired` to the target level
minus the arithmetic mean of the window, move the auto-gain value toward
`desired` by a factor 8/100, and clamp it into `[-24, 24]`. -/
noncomputable def agcClaimStep (targetLevel loudness : ℝ) (st : AGCState) : AGCState :=
  let pushed := st.rmsHistory ++ [loudness]
  let window := if 20 < pushed.length then pushed.drop 1 else pushed
  let mean := window.sum / window.length
  let desired := targetLevel - mean
  let smoothed := st.autoGainValue + (desired - st.autoGainValue) * (8 / 100)
  ⟨window, min 24 (max (-24) smoothed)⟩

lemma clamp_comm (x : ℝ) : max (-24) (min 24 x) = min 24 (max (-24) x) := by
  rw [max_min_distrib_left, max_eq_right (by norm_num : (-24 : ℝ) ≤ 24)]

/-- C3: a metering tick with processing enabled, auto-gain on, and input
RMS above the 0.0005 silence floor performs exactly the push / drop-oldest
(capacity 20) / mean / smooth-by-0.08 / clamp-to-[-24,24] update described
by the claim (`agcClaimStep`, written from the claim's wording); a tick
where any precondition fails leaves the window and `autoGainValue`
unchanged. -/
theorem meterTick_agc_behaviour (e a : Bool) (t : ℝ) (inBuf outBuf : List ℝ)
    (r : ℝ) (st : AGCState) :
    (e = true → a = true → calcRMS inBuf > 0.0005 →
      (meterTick e a t inBuf outBuf r st).1 =
        agcClaimStep t (linearToDB (calcRMS inBuf)) st) ∧
    (¬(e = true ∧ a = true ∧ calcRMS inBuf > 0.0005) →
      (meterTick e a t inBuf outBuf r st).1 = st) := by
  constructor
  · intro he ha hr
    subst he; subst ha
    simp only [meterTick, agcClaimStep]
    rw [if_pos ⟨trivial, trivial, hr⟩, clamp_comm]
    norm_num [RMS_HISTORY_LEN, List.drop_one]
  · intro h
    simp only [meterTick]
    rw [if_neg h]

/-- Witness for C3: a triggering tick at buffer `[1]` (RMS 1) and a
suppressed tick with `enabled = false`, both at concrete state `⟨[], 0⟩`. -/
theorem meterTick_agc_behaviour_witness :
    calcRMS [(1 : ℝ)] > 0.0005 ∧
    (meterTick true true 10 [(1 : ℝ)] [(1 : ℝ)] 0 ⟨[], 0⟩).1 =
      agcClaimStep 10 (linearToDB (calcRMS [(1 : ℝ)])) ⟨[], 0⟩ ∧
    (meterTick false true 10 [(1 : ℝ)] [(1 : ℝ)] 0 ⟨[], 0⟩).1 = ⟨[], 0⟩ := by
  have hrms : calcRMS [(1 : ℝ)] = 1 := by simp [calcRMS]
  have h1 : calcRMS [(1 : ℝ)] > 0.0005 := by rw [hrms]; norm_num
  exact ⟨h1,
    (meterTick_agc_behaviour true true 10 [(1 : ℝ)] [(1 : ℝ)] 0 ⟨[], 0⟩).1 rfl rfl h1,
    (meterTick_agc_behaviour false true 10 [(1 : ℝ)] [(1 : ℝ)] 0 ⟨[], 0⟩).2 (by simp)⟩

lemma replicate_mean (m : ℕ) (d : ℝ) (hm : m ≠ 0) :
    (List.replicate m d).sum / ((List.replicate m d).length : ℝ) = d := by
  rw [List.sum_replicate, List.length_replicate, nsmul_eq_mul,
    mul_div_cancel_left₀ _ (by exact_mod_cast hm : (m : ℝ) ≠ 0)]

lemma meterTick_const_step (t : ℝ) (buf : List ℝ) (k : ℕ) (ag : ℝ) (hk : k ≤ 20)
    (h1 : calcRMS buf > 0.0005) (h2 : linearToDB (calcRMS buf) = t - 10) :
    (meterTick true true t buf buf 0 ⟨List.replicate k (t - 10), ag⟩).1 =
      ⟨List.replicate (min (k + 1) 20) (t - 10),
        max (-24) (min 24 (ag + (10 - ag) * 0.08))⟩ := by
  have hpush : List.replicate k (t - 10) ++ [linearToDB (calcRMS buf)] =
      List.replicate (k + 1) (t - 10) := by
    rw [h2]; exact (List.replicate_succ' _ _).symm
  simp only [meterTick]
  rw [if_pos ⟨trivial, trivial, h1⟩]
  simp only [hpush]
  have hwin : (if (List.replicate (k + 1) (t - 10)).length > RMS_HISTORY_LEN
      then (List.replicate (k + 1) (t - 10)).tail
      else List.replicate (k + 1) (t - 10)) =
      List.replicate (min (k + 1) 20) (t - 10) := by
    rw [List.length_replicate]
    rcases Nat.lt_or_ge k 20 with hklt | hk20
    · rw [if_neg (by simp [RMS_HISTORY_LEN]; omega)]
      congr 1
      omega
    · have hkk : k = 20 := le_antisymm hk hk20
      subst hkk
      rw [if_pos (by simp [RMS_HISTORY_LEN]), List.tail_replicate]
      congr 1
  rw [hwin]
  have hmean := replicate_mean (min (k + 1) 20) (t - 10) (by omega)
  rw [hmean]
  congr 2
  ring_nf

/-- Controller state after `n` metering ticks from the fresh state
installed by `startMetering` (empty window, zero auto-gain), when every
tick samples the same input buffer with `enabled` and `autoGain` on. -/
noncomputable def agcRun (t : ℝ) (buf : List ℝ) : ℕ → AGCState
  | 0 => ⟨[], 0⟩
  | n + 1 => (meterTick true true t buf buf 0 (agcRun t buf n)).1

lemma meterTick_unclamped (t : ℝ) (buf : List ℝ) (k : ℕ) (ag : ℝ) (hk : k ≤ 20)
    (h0 : 0 ≤ ag) (h10 : ag ≤ 10)
    (h1 : calcRMS buf > 0.0005) (h2 : linearToDB (calcRMS buf) = t - 10) :
    (meterTick true true t buf buf 0 ⟨List.replicate k (t - 10), ag⟩).1 =
      ⟨List.replicate (min (k + 1) 20) (t - 10), ag + (10 - ag) * 0.08⟩ := by
  rw [meterTick_const_step t buf k ag hk h1 h2]
  congr 1
  rw [min_eq_right (by nlinarith : ag + (10 - ag) * 0.08 ≤ 24),
    max_eq_right (by nlinarith : (-24 : ℝ) ≤ ag + (10 - ag) * 0.08)]

lemma agcRun_window_bounds (t : ℝ) (buf : List ℝ)
    (h1 : calcRMS buf > 0.0005) (h2 : linearToDB (calcRMS buf) = t - 10) :
    ∀ n, (agcRun t buf n).rmsHistory = List.replicate (min n 20) (t - 10) ∧
      0 ≤ (agcRun t buf n).autoGainValue ∧ (agcRun t buf n).autoGainValue ≤ 10 := by
  intro n
  induction n with
  | zero =>
      refine ⟨by simp [agcRun], ?_, ?_⟩ <;> norm_num [agcRun]
  | succ n ih =>
    obtain ⟨hw, h0, h10⟩ := ih
    have hs : agcRun t buf n =
        (⟨List.replicate (min n 20) (t - 10), (agcRun t buf n).autoGainValue⟩ :
          AGCState) := by
      rw [← hw]
    have hsucc : agcRun t buf (n + 1) =
        ⟨List.replicate (min (n + 1) 20) (t - 10),
          (agcRun t buf n).autoGainValue +
            (10 - (agcRun t buf n).autoGainValue) * 0.08⟩ := by
      simp only [agcRun]
      rw [hs, meterTick_unclamped t buf (min n 20) _ (min_le_right n 20) h0 h10 h1 h2]
      have hmin : min (min n 20 + 1) 20 = min (n + 1) 20 := by omega
      rw [hmin]
    rw [hsucc]
    exact ⟨rfl, by nlinarith, by nlinarith⟩

lemma agcRun_succ_state (t : ℝ) (buf : List ℝ)
    (h1 : calcRMS buf > 0.0005) (h2 : linearToDB (calcRMS buf) = t - 10) (n : ℕ) :
    agcRun t buf (n + 1) =
      ⟨List.replicate (min (n + 1) 20) (t - 10),
        (agcRun t buf n).autoGainValue +
          (10 - (agcRun t buf n).autoGainValue) * 0.08⟩ := by
  obtain ⟨hw, h0, h10⟩ := agcRun_window_bounds t buf h1 h2 n
  have hs : agcRun t buf n =
      (⟨List.replicate (min n 20) (t - 10), (agcRun t buf n).autoGainValue⟩ :
        AGCState) := by
    rw [← hw]
  simp only [agcRun]
  rw [hs, meterTick_unclamped t buf (min n 20) _ (min_le_right n 20) h0 h10 h1 h2]
  have hmin : min (min n 20 + 1) 20 = min (n + 1) 20 := by omega
  rw [hmin]

/-- C6: starting from `autoGainValue = 0` and an empty window, feeding on
every tick a fixed input buffer above the silence floor whose measured
loudness is `targetLevel - 10` dB makes `autoGainValue` monotonically
non-decreasing, keeps it within `[-24, 24]`, and shrinks its distance
to `+10` dB geometrically by the factor `1 - 0.08` per tick (convergence
toward `+10`). -/
theorem agc_constant_input_convergence (t : ℝ) (buf : List ℝ)
    (h1 : calcRMS buf > 0.0005) (h2 : linearToDB (calcRMS buf) = t - 10) (n : ℕ) :
    (agcRun t buf n).autoGainValue ≤ (agcRun t buf (n + 1)).autoGainValue ∧
    (-24 ≤ (agcRun t buf n).autoGainValue ∧ (agcRun t buf n).autoGainValue ≤ 24) ∧
    10 - (agcRun t buf (n + 1)).autoGainValue =
      (1 - 0.08) * (10 - (agcRun t buf n).autoGainValue) := by
  obtain ⟨hw, h0, h10⟩ := agcRun_window_bounds t buf h1 h2 n
  rw [agcRun_succ_state t buf h1 h2 n]
  refine ⟨by nlinarith, ⟨by linarith, by linarith⟩, ?_⟩
  ring

/-- Witness for C6 at the concrete buffer `[1]` (loudness 0 dB) and
target level `10` dB, after the first tick. -/
theorem agc_constant_input_convergence_witness :
    calcRMS [(1 : ℝ)] > 0.0005 ∧
    linearToDB (calcRMS [(1 : ℝ)]) = 10 - 10 ∧
    ((agcRun 10 [(1 : ℝ)] 0).autoGainValue ≤ (agcRun 10 [(1 : ℝ)] 1).autoGainValue ∧
     (-24 ≤ (agcRun 10 [(1 : ℝ)] 0).autoGainValue ∧
       (agcRun 10 [(1 : ℝ)] 0).autoGainValue ≤ 24) ∧
     10 - (agcRun 10 [(1 : ℝ)] 1).autoGainValue =
       (1 - 0.08) * (10 - (agcRun 10 [(1 : ℝ)] 0).autoGainValue)) := by
  have hrms : calcRMS [(1 : ℝ)] = 1 := by simp [calcRMS]
  have h1 : calcRMS [(1 : ℝ)] > 0.0005 := by rw [hrms]; norm_num
  have h2 : linearToDB (calcRMS [(1 : ℝ)]) = 10 - 10 := by
    rw [hrms]; norm_num [linearToDB]
  exact ⟨h1, h2, agc_constant_input_convergence 10 [(1 : ℝ)] h1 h2 0⟩

/-- Modelled from the claim's wording, for comparison against the code's
meter: the claimed formula `20 * log10 (max rms ε)` with `ε = 1e-10`. -/
noncomputable def claimedMeterDB (buffer : List ℝ) : ℝ :=
  20 * Real.logb 10 (max (calcRMS buffer) 1e-10)

lemma logb10_rpow (x : ℝ) : Real.logb 10 ((10 : ℝ) ^ x) = x :=
  Real.logb_rpow (by norm_num) (by norm_num)

lemma rpow_neg_ten : ((10 : ℝ) ^ (-10 : ℝ)) = 1e-10 := by
  rw [show (-10 : ℝ) = ((-10 : ℤ) : ℝ) by norm_num, Real.rpow_intCast]
  norm_num

lemma rpow_neg_twelve : ((10 : ℝ) ^ (-12 : ℝ)) = 1e-12 := by
  rw [show (-12 : ℝ) = ((-12 : ℤ) : ℝ) by norm_num, Real.rpow_intCast]
  norm_num

lemma logb10_floor : Real.logb 10 (1e-10 : ℝ) = -10 := by
  rw [← rpow_neg_ten, logb10_rpow]

/-- C5 counterexample: on the one-sample block `[1e-12]` the code's meter
returns `-240` dB (it passes the non-zero RMS `1e-12` straight to the
logarithm), while the claimed formula `20 * log10 (max rms 1e-10)` gives
`-200` dB, so the meter is not the claimed max-floored formula. -/
theorem meter_floor_not_max :
    linearToDB (calcRMS [(1e-12 : ℝ)]) = -240 ∧
    claimedMeterDB [(1e-12 : ℝ)] = -200 ∧
    linearToDB (calcRMS [(1e-12 : ℝ)]) ≠ claimedMeterDB [(1e-12 : ℝ)] := by
  have hrms : calcRMS [(1e-12 : ℝ)] = 1e-12 := by
    simp only [calcRMS, List.map_cons, List.map_nil, List.sum_cons, List.sum_nil,
      List.length_cons, List.length_nil, zero_add, Nat.cast_one, add_zero]
    rw [div_one, show (1e-12 : ℝ) * 1e-12 = (1e-12 : ℝ) ^ 2 by ring,
      Real.sqrt_sq (by norm_num)]
  have hcode : linearToDB (calcRMS [(1e-12 : ℝ)]) = -240 := by
    rw [hrms, linearToDB, if_neg (by norm_num), ← rpow_neg_twelve, logb10_rpow]
    norm_num
  have hclaim : claimedMeterDB [(1e-12 : ℝ)] = -200 := by
    rw [claimedMeterDB, hrms, max_eq_right (by norm_num), logb10_floor]
    norm_num
  exact ⟨hcode, hclaim, by rw [hcode, hclaim]; norm_num⟩

/-- C5 amended: for a block of N > 0 samples the meter returns
`20 * log10 rms` whenever the RMS is non-zero, and `20 * log10 ε` with
`ε = 1e-10` — that is, exactly `-200` dB, a finite, very negative value —
when the RMS is zero: the `lin || 1e-10` floor replaces only an
exactly-zero RMS, not every value below ε. In particular an all-zero
block yields `-200` dB. -/
theorem meter_formula (buf : List ℝ) (_hn : 0 < buf.length) :
    (calcRMS buf ≠ 0 →
      linearToDB (calcRMS buf) = 20 * Real.logb 10 (calcRMS buf)) ∧
    (calcRMS buf = 0 → linearToDB (calcRMS buf) = -200) := by
  constructor
  · intro h
    rw [linearToDB, if_neg h]
  · intro h
    rw [h, linearToDB, if_pos rfl, logb10_floor]
    norm_num

/-- Witness for C5 (amended): the all-zero block `[0, 0, 0]` has RMS `0`
and meters at exactly `-200` dB. -/
theorem meter_formula_witness :
    0 < (List.replicate 3 (0 : ℝ)).length ∧
    calcRMS (List.replicate 3 (0 : ℝ)) = 0 ∧
    linearToDB (calcRMS (List.replicate 3 (0 : ℝ))) = -200 := by
  have hz : calcRMS (List.replicate 3 (0 : ℝ)) = 0 := by
    simp [calcRMS]
  exact ⟨by norm_num, hz,
    (meter_formula (List.replicate 3 (0 : ℝ)) (by norm_num)).2 hz⟩

/-- The per-stage parameter values pushed by `applySettingsToNodes`:
compressor fields (attack and release converted ms to s), gain stages
converted dB to linear amplitude, and the limiter threshold. -/
structure NodeParams where
  threshold : ℝ
  ratio : ℝ
  knee : ℝ
  attack : ℝ
  release : ℝ
  makeupGainLinear : ℝ
  preGainLinear : ℝ
  limiterThreshold : ℝ

/-- The node-parameter assignments of `applySettingsToNodes`. -/
noncomputable def nodeParamsOf (s : Settings) : NodeParams :=
  { threshold := (s.threshold : ℝ), ratio := (s.ratio : ℝ), knee := (s.knee : ℝ),
    attack := (s.attack : ℝ) / 1000, release := (s.release : ℝ) / 1000,
    makeupGainLinear := dBtoLinear (s.makeupGain : ℝ),
    preGainLinear := dBtoLinear (s.preGain : ℝ),
    limiterThreshold := (s.limiterThreshold : ℝ) }

/-- Effect of `applySettingsToNodes` on the module state: it pushes the
node parameters and, when `settings.autoGain` is off, zeroes
`autoGainValue` and requests `setTargetAtTime(1, now, 0.05)` on the
auto-gain stage (a ramp to unity gain with a 0.05 s time constant).
It never touches `rmsHistory`. -/
noncomputable def applySettingsToNodes (s : Settings) (agv : ℝ) :
    NodeParams × ℝ × Option Ramp :=
  (nodeParamsOf s,
   if s.autoGain then agv else 0,
   if s.autoGain then none else some ⟨1, 0.05⟩)

/-- The content script's module state touched by a settings update. -/
structure ContentState where
  settings : Settings
  autoGainValue : ℝ
  rmsHistory : List ℝ

/-- Full effect of an `updateSettings` message on the module state: the
settings transition followed by `applySettingsToNodes`. `rmsHistory` is
not an input of either step — it is cleared only by `startMetering`
during a graph (re)build. -/
noncomputable def handleUpdateSettingsFull (st : ContentState) (inc : Incoming) :
    ContentState × Option Ramp :=
  let s1 := updateSettingsStep st.settings inc
  let asn := applySettingsToNodes s1 st.autoGainValue
  (⟨s1, asn.2.1, st.rmsHistory⟩, asn.2.2)

/-- C4 counterexample: a settings update that turns auto-gain off while
the rolling loudness window holds the entry `-14` leaves the window
non-empty — the claim's "window emptied" part fails (only `autoGainValue`
is reset; `rmsHistory` is cleared solely by `startMetering`). -/
theorem autoGain_off_window_not_emptied :
    DEFAULT_SETTINGS.autoGain = true ∧
    (updateSettingsStep DEFAULT_SETTINGS { autoGain := some false }).autoGain = false ∧
    (handleUpdateSettingsFull ⟨DEFAULT_SETTINGS, 3, [(-14 : ℝ)]⟩
        { autoGain := some false }).1.rmsHistory ≠ ([] : List ℝ) := by
  refine ⟨by decide, by decide, ?_⟩
  simp [handleUpdateSettingsFull]

/-- C4 amended: when a settings update turns auto-gain off, the running
`autoGainValue` resets to 0 and the auto-gain stage is smoothly ramped to
unity gain with a 0.05 s (about 50 ms) time constant rather than snapped;
the rolling loudness window is left unchanged, not emptied (it is cleared
only when metering restarts on a graph rebuild). -/
theorem autoGain_off_resets_value_and_ramps (st : ContentState) (inc : Incoming)
    (h : (updateSettingsStep st.settings inc).autoGain = false) :
    (handleUpdateSettingsFull st inc).1.autoGainValue = 0 ∧
    (handleUpdateSettingsFull st inc).2 = some ⟨1, 0.05⟩ ∧
    (handleUpdateSettingsFull st inc).1.rmsHistory = st.rmsHistory := by
  simp [handleUpdateSettingsFull, applySettingsToNodes, h]

/-- Witness for C4 (amended) at the concrete state with `autoGainValue = 5`
and window `[-20]`, updated with `autoGain := false`. -/
theorem autoGain_off_resets_value_and_ramps_witness :
    (updateSettingsStep DEFAULT_SETTINGS { autoGain := some false }).autoGain = false ∧
    ((handleUpdateSettingsFull ⟨DEFAULT_SETTINGS, 5, [(-20 : ℝ)]⟩
        { autoGain := some false }).1.autoGainValue = 0 ∧
     (handleUpdateSettingsFull ⟨DEFAULT_SETTINGS, 5, [(-20 : ℝ)]⟩
        { autoGain := some false }).2 = some ⟨1, 0.05⟩ ∧
     (handleUpdateSettingsFull ⟨DEFAULT_SETTINGS, 5, [(-20 : ℝ)]⟩
        { autoGain := some false }).1.rmsHistory = [(-20 : ℝ)]) :=
  ⟨by decide,
   autoGain_off_resets_value_and_ramps ⟨DEFAULT_SETTINGS, 5, [(-20 : ℝ)]⟩
     { autoGain := some false } (by decide)⟩

/-- C9 counterexample: `applyPreset` with the unknown preset name
`toString` is not a no-op. The bracket lookup finds the inherited
`Object.prototype.toString`, which is truthy, so the guarded block runs:
the settings record changes (`preset := "toString"`, `enabled := true`),
and a persistence write, parameter application and re-routing all
occur. -/
theorem applyPreset_proto_name_not_noop :
    PRESETS "toString" = none ∧
    (handleMessage DEFAULT_SETTINGS (Msg.applyPreset "toString")).1.preset = "toString" ∧
    (handleMessage DEFAULT_SETTINGS (Msg.applyPreset "toString")).1.enabled = true ∧
    (handleMessage DEFAULT_SETTINGS (Msg.applyPreset "toString")).2.1 =
      [Effect.save, Effect.applyParams, Effect.routeProcessing] := by
  decide

/-- C9 amended: an `applyPreset` whose name is neither a preset-table
entry nor an inherited `Object.prototype` property name is a no-op — the
settings record is unchanged, no persistence write, parameter application
or re-routing occurs, and the response still returns the (unchanged)
current settings. For an unknown name that does resolve through the
prototype chain (`constructor`, `toString`, `__proto__`, ...), the truthy
lookup passes the `if (p)` guard: no tuple field is copied from the
built-in, but `preset` is set to that name, `enabled` is forced `true`,
and save, parameter application and re-routing all run, with the response
echoing the changed settings. -/
theorem applyPreset_unknown_behaviour (s : Settings) (name : String)
    (h : PRESETS name = none) :
    (protoProperty name = false →
      handleMessage s (Msg.applyPreset name) = (s, [], Response.success s)) ∧
    (protoProperty name = true →
      handleMessage s (Msg.applyPreset name) =
        ({ s with preset := name, enabled := true },
         [Effect.save, Effect.applyParams, Effect.routeProcessing],
         Response.success { s with preset := name, enabled := true })) := by
  constructor
  · intro hpp
    simp [handleMessage, h, hpp]
  · intro hpp
    simp [handleMessage, h, hpp]

/-- Witness for C9 (amended): the non-prototype unknown name `vintage` is
a pure no-op, while the prototype-chain name `toString` mutates the
settings and triggers the full effect list. -/
theorem applyPreset_unknown_behaviour_witness :
    (PRESETS "vintage" = none ∧ protoProperty "vintage" = false ∧
      handleMessage DEFAULT_SETTINGS (Msg.applyPreset "vintage") =
        (DEFAULT_SETTINGS, [], Response.success DEFAULT_SETTINGS)) ∧
    (PRESETS "toString" = none ∧ protoProperty "toString" = true ∧
      handleMessage DEFAULT_SETTINGS (Msg.applyPreset "toString") =
        ({ DEFAULT_SETTINGS with preset := "toString", enabled := true },
         [Effect.save, Effect.applyParams, Effect.routeProcessing],
         Response.success
           { DEFAULT_SETTINGS with preset := "toString", enabled := true })) :=
  ⟨⟨by decide, by decide,
    (applyPreset_unknown_behaviour DEFAULT_SETTINGS "vintage" (by decide)).1 (by decide)⟩,
   ⟨by decide, by decide,
    (applyPreset_unknown_behaviour DEFAULT_SETTINGS "toString" (by decide)).2 (by decide)⟩⟩

/-- Names of the audio nodes created per graph build (the `nodes` object's
values, minus the context-level destination). -/
inductive NodeName
  | source
  | inputAnalyser
  | preGain
  | autoGain
  | compressor
  | makeupGain
  | limiter
  | outputAnalyser
deriving DecidableEq

/-- A connection endpoint: a node of some build generation, or the
`AudioContext` destination. -/
inductive Endpoint
  | node (gen : ℕ) (name : NodeName)
  | destination
deriving DecidableEq

/-- A live `connect` edge from a node to an endpoint. -/
structure Conn where
  fromGen : ℕ
  fromNode : NodeName
  toEnd : Endpoint
deriving DecidableEq

/-- Events recorded while binding sources; videos are identified by a
numeric identity and `tapAttempt` marks a `createMediaElementSource`
call. -/
inductive GEvent
  | tapAttempt (video : ℕ)
  | tapFailed (video : ℕ)
  | graphBuilt (video : ℕ) (gen : ℕ)
deriving DecidableEq

/-- The graph-related module state: the currently bound video
(`currentVideo`), whether an `AudioContext` exists, the generation of the
current `nodes` object (`none` while `nodes` is still the initial empty
object), the live connections, a fresh-generation counter, and the event
trace. -/
structure GraphState where
  currentVideo : Option ℕ
  audioCtx : Bool
  nodesGen : Option ℕ
  connections : List Conn
  nextGen : ℕ
  trace : List GEvent
deriving DecidableEq

/-- Module state at script start. -/
def initialGraphState : GraphState :=
  { currentVideo := none, audioCtx := false, nodesGen := none,
    connections := [], nextGen := 0, trace := [] }

/-- Function `disconnectAll()`: calls `disconnect()` on every value of the
current `nodes` object, removing the outgoing connections of the current
generation's nodes only — connections of earlier node sets are not
reachable from `nodes` and are not touched. -/
def disconnectAll (g : GraphState) : GraphState :=
  { g with connections :=
      g.connections.filter (fun c => decide (some c.fromGen ≠ g.nodesGen)) }

/-- The processing-mode edges wired by `connectProcessing` for node
generation `gen`: source through the metering taps and gain/compressor
stages to the destination. -/
def processingChain (gen : ℕ) : List Conn :=
  [⟨gen, NodeName.source, Endpoint.node gen NodeName.inputAnalyser⟩,
   ⟨gen, NodeName.inputAnalyser, Endpoint.node gen NodeName.preGain⟩,
   ⟨gen, NodeName.preGain, Endpoint.node gen NodeName.autoGain⟩,
   ⟨gen, NodeName.autoGain, Endpoint.node gen NodeName.compressor⟩,
   ⟨gen, NodeName.compressor, Endpoint.node gen NodeName.makeupGain⟩,
   ⟨gen, NodeName.makeupGain, Endpoint.node gen NodeName.limiter⟩,
   ⟨gen, NodeName.limiter, Endpoint.node gen NodeName.outputAnalyser⟩,
   ⟨gen, NodeName.outputAnalyser, Endpoint.destination⟩]

/-- Function `connectProcessing()`: disconnect the current node set, then
wire the processing chain through it. -/
def connectProcessing (g : GraphState) : GraphState :=
  let g1 := disconnectAll g
  match g1.nodesGen with
  | some gen => { g1 with connections := g1.connections ++ processingChain gen }
  | none => g1

/-- The bypass-mode edge wired by `connectBypass` for node generation
`gen`: the source directly to the destination. -/
def bypassChain (gen : ℕ) : List Conn :=
  [⟨gen, NodeName.source, Endpoint.destination⟩]

/-- Function `connectBypass()`: disconnect the current node set, then wire
the source directly to the destination. -/
def connectBypass (g : GraphState) : GraphState :=
  let g1 := disconnectAll g
  match g1.nodesGen with
  | some gen => { g1 with connections := g1.connections ++ bypassChain gen }
  | none => g1

/-- Function `buildGraph(video)`: early return when the same video is
already bound and a context exists; otherwise record the video as current,
ensure an `AudioContext`, attempt the media-element tap (`tapFails` says
whether `createMediaElementSource` throws for a given video, in which case
the handler logs and returns), and on success replace `nodes` with a
fresh node set and route according to `enabled`. -/
def buildGraph (tapFails : ℕ → Bool) (enabled : Bool) (video : ℕ)
    (g : GraphState) : GraphState :=
  if g.currentVideo = some video ∧ g.audioCtx = true then g
  else
    let g1 := { g with currentVideo := some video, audioCtx := true }
    if tapFails video then
      { g1 with trace :=
          g1.trace ++ [GEvent.tapAttempt video, GEvent.tapFailed video] }
    else
      let gen := g1.nextGen
      let g2 := { g1 with
        nodesGen := some gen,
        nextGen := gen + 1,
        trace := g1.trace ++ [GEvent.tapAttempt video, GEvent.graphBuilt video gen] }
      if enabled then connectProcessing g2 else connectBypass g2

lemma connectProcessing_trace (g : GraphState) :
    (connectProcessing g).trace = g.trace := by
  simp only [connectProcessing]
  cases h : (disconnectAll g).nodesGen <;> simp [h, disconnectAll]

lemma connectBypass_trace (g : GraphState) :
    (connectBypass g).trace = g.trace := by
  simp only [connectBypass]
  cases h : (disconnectAll g).nodesGen <;> simp [h, disconnectAll]

/-- C8 counterexample: bind video 1, then bind video 2. The generation-0
edge `source → inputAnalyser` of the first stage set is still live after
the rebind (node set 1 is current), so rebinding does not release the
previous stage set's connections. -/
theorem rebind_leaves_old_connections :
    (⟨0, NodeName.source, Endpoint.node 0 NodeName.inputAnalyser⟩ : Conn) ∈
      (buildGraph (fun _ => false) true 2
        (buildGraph (fun _ => false) true 1 initialGraphState)).connections ∧
    (buildGraph (fun _ => false) true 2
        (buildGraph (fun _ => false) true 1 initialGraphState)).nodesGen = some 1 := by
  decide

lemma buildGraph_ok_connections (tf : ℕ → Bool) (e : Bool) (v : ℕ)
    (g : GraphState)
    (hdiff : ¬(g.currentVideo = some v ∧ g.audioCtx = true))
    (hok : tf v = false) :
    (buildGraph tf e v g).connections =
      (g.connections.filter (fun c => decide (some c.fromGen ≠ some g.nextGen))) ++
        (if e then processingChain g.nextGen else bypassChain g.nextGen) := by
  cases e with
  | true => simp [buildGraph, hdiff, hok, connectProcessing, disconnectAll]
  | false => simp [buildGraph, hdiff, hok, connectBypass, disconnectAll]

/-- C8 amended: binding a source different from the currently bound one
allocates a fresh stage set and wires it, but does not release the
previous stage set's connections: `disconnectAll` only clears connections
of the (already replaced) current node set, so every connection of the
previous build survives the rebind alongside the fresh chain. -/
theorem rebind_keeps_previous_connections (tf : ℕ → Bool) (e : Bool) (v : ℕ)
    (g : GraphState)
    (hdiff : ¬(g.currentVideo = some v ∧ g.audioCtx = true))
    (hok : tf v = false)
    (hfresh : ∀ c ∈ g.connections, c.fromGen ≠ g.nextGen) :
    (buildGraph tf e v g).connections =
      g.connections ++
        (if e then processingChain g.nextGen else bypassChain g.nextGen) ∧
    ∀ c ∈ g.connections, c ∈ (buildGraph tf e v g).connections := by
  have hfilter :
      g.connections.filter (fun c => decide (some c.fromGen ≠ some g.nextGen)) =
        g.connections := by
    rw [List.filter_eq_self]
    intro c hc
    simpa using hfresh c hc
  have hconn := buildGraph_ok_connections tf e v g hdiff hok
  rw [hfilter] at hconn
  refine ⟨hconn, fun c hc => ?_⟩
  rw [hconn]
  exact List.mem_append_left _ hc

/-- Witness for C8 (amended): rebinding from video 1 to video 2 in the
concrete two-bind scenario keeps every generation-0 connection. -/
theorem rebind_keeps_previous_connections_witness :
    ((buildGraph (fun _ => false) true 2
        (buildGraph (fun _ => false) true 1 initialGraphState)).connections =
      (buildGraph (fun _ => false) true 1 initialGraphState).connections ++
        (if true then processingChain
            (buildGraph (fun _ => false) true 1 initialGraphState).nextGen
         else bypassChain
            (buildGraph (fun _ => false) true 1 initialGraphState).nextGen)) ∧
    ∀ c ∈ (buildGraph (fun _ => false) true 1 initialGraphState).connections,
      c ∈ (buildGraph (fun _ => false) true 2
        (buildGraph (fun _ => false) true 1 initialGraphState)).connections :=
  rebind_keeps_previous_connections (fun _ => false) true 2
    (buildGraph (fun _ => false) true 1 initialGraphState)
    (by decide) rfl (by decide)

lemma buildGraph_diff_video_attempts (tf : ℕ → Bool) (e : Bool) (v2 : ℕ)
    (g : GraphState)
    (hc : ¬(g.currentVideo = some v2 ∧ g.audioCtx = true)) :
    ∃ rest, (buildGraph tf e v2 g).trace =
      g.trace ++ (GEvent.tapAttempt v2 :: rest) := by
  by_cases htf : tf v2 = true
  · exact ⟨[GEvent.tapFailed v2], by simp [buildGraph, hc, htf]⟩
  · have htff : tf v2 = false := by simpa using htf
    refine ⟨[GEvent.graphBuilt v2 g.nextGen], ?_⟩
    cases e with
    | true => simp [buildGraph, hc, htff, connectProcessing_trace]
    | false => simp [buildGraph, hc, htff, connectBypass_trace]

/-- C10: when the media-element tap throws for a video, `buildGraph` has
already recorded it as `currentVideo` (and created the context), builds no
node set and no connections; a repeated bind with the same video then
returns immediately with no new tap attempt, while a bind with a
different video still attempts the tap. -/
theorem failed_bind_sticks (tf : ℕ → Bool) (e : Bool) (v : ℕ) (g : GraphState)
    (hfail : tf v = true)
    (hnew : ¬(g.currentVideo = some v ∧ g.audioCtx = true)) :
    (buildGraph tf e v g).currentVideo = some v ∧
    (buildGraph tf e v g).audioCtx = true ∧
    (buildGraph tf e v g).nodesGen = g.nodesGen ∧
    (buildGraph tf e v g).connections = g.connections ∧
    (buildGraph tf e v g).trace =
      g.trace ++ [GEvent.tapAttempt v, GEvent.tapFailed v] ∧
    buildGraph tf e v (buildGraph tf e v g) = buildGraph tf e v g ∧
    ∀ v2, v2 ≠ v →
      ∃ rest, (buildGraph tf e v2 (buildGraph tf e v g)).trace =
        (buildGraph tf e v g).trace ++ (GEvent.tapAttempt v2 :: rest) := by
  have hg : buildGraph tf e v g =
      { g with
        currentVideo := some v,
        audioCtx := true,
        trace := g.trace ++ [GEvent.tapAttempt v, GEvent.tapFailed v] } := by
    simp [buildGraph, hnew, hfail]
  refine ⟨by rw [hg], by rw [hg], by rw [hg], by rw [hg], by rw [hg], ?_, ?_⟩
  · rw [hg]
    simp [buildGraph]
  · intro v2 hv2
    apply buildGraph_diff_video_attempts
    rintro ⟨h, -⟩
    rw [hg] at h
    simp at h
    exact hv2 h.symm

/-- Witness for C10: video 1's tap fails; it is recorded as current with
no node set, and a second bind with video 1 is a complete no-op. -/
theorem failed_bind_sticks_witness :
    (buildGraph (fun v => v == 1) true 1 initialGraphState).currentVideo = some 1 ∧
    (buildGraph (fun v => v == 1) true 1 initialGraphState).nodesGen = none ∧
    buildGraph (fun v => v == 1) true 1
        (buildGraph (fun v => v == 1) true 1 initialGraphState) =
      buildGraph (fun v => v == 1) true 1 initialGraphState := by
  obtain ⟨h1, h2, h3, h4, h5, h6, h7⟩ :=
    failed_bind_sticks (fun v => v == 1) true 1 initialGraphState rfl (by decide)
  exact ⟨h1, by rw [h3]; rfl, h6⟩

end YTAN
